import Mathlib

/-
  Verification of the data-management core of tql.py, a MySQL administration
  tool.  The definitions below are a shallow embedding of the Python source:
  configuration loading and repair (ConfigManager), query history and recent
  projects (QueryHistoryManager, MySQLDatabaseManager.add_to_recent_projects),
  the connection life cycle and query execution (DatabaseManager), and the
  local credential store (CreateUserDialog.create_user, LoginDialog.authenticate).
  External collaborators (the json module, the MySQL driver, hashlib, the file
  system) are modelled by explicit parameters: parse outcomes, engine results,
  an abstract digest function, and write outcomes.
-/

/-- JSON values as produced by json.load: null, booleans, numbers, strings,
arrays, and objects (ordered key-value lists, as Python dicts preserve
insertion order). -/
inductive JsonVal where
  | null : JsonVal
  | bool (b : Bool) : JsonVal
  | num (n : Int) : JsonVal
  | str (s : String) : JsonVal
  | arr (elems : List JsonVal) : JsonVal
  | obj (entries : List (String × JsonVal)) : JsonVal

/-- Key lookup in a JSON object entry list; mirrors Python dict indexing
(first match, and parsed JSON has unique keys). -/
def lookupEntries : List (String × JsonVal) → String → Option JsonVal
  | [], _ => none
  | (k, v) :: rest, key => if k == key then some v else lookupEntries rest key

/-- Lookup of a top-level key in a JSON value; none when the value is not an
object or the key is absent. -/
def jsonLookup (j : JsonVal) (key : String) : Option JsonVal :=
  match j with
  | .obj entries => lookupEntries entries key
  | _ => none

/-- Whether a JSON value is an object (isinstance(config, dict) in the source). -/
def isObj : JsonVal → Bool
  | .obj _ => true
  | _ => false

/-- The default_config dictionary built at the top of
ConfigManager.load_config (src/tql.py lines 57-73), as an ordered entry list. -/
def default_sections : List (String × JsonVal) :=
  [("mysql", .obj [("host", .str "localhost"), ("port", .num 3306),
                   ("username", .str "root"), ("password", .str "")]),
   ("appearance", .obj [("theme", .str "Light"), ("font_size", .num 10)]),
   ("editor", .obj [("auto_complete", .bool true),
                    ("syntax_highlighting", .bool true)]),
   ("current_user", .null)]

/-- The default configuration as a JSON object. -/
def default_config : JsonVal := .obj default_sections

/-- The per-section validation loop of ConfigManager.load_config
(src/tql.py lines 96-115): iterate over the default sections; skip a section
whose default value is not a dict; otherwise take the stored section when it
is a dict (else an empty dict) and fill every default key from the stored
section when present, from the defaults otherwise. -/
def validateSections : List (String × JsonVal) → List (String × JsonVal) →
    List (String × JsonVal)
  | [], _ => []
  | (sectionName, dv) :: rest, config =>
    match dv with
    | .obj defaults =>
      let existing : List (String × JsonVal) :=
        match lookupEntries config sectionName with
        | some (.obj kvs) => kvs
        | _ => []
      (sectionName,
        .obj (defaults.map (fun kv =>
          (kv.1, (lookupEntries existing kv.1).getD kv.2)))) ::
        validateSections rest config
    | _ => validateSections rest config

/-- Python exception classes raised or caught inside ConfigManager.load_config. -/
inductive PyExn where
  | jsonDecodeError : PyExn
  | fileNotFoundError : PyExn
  | valueError : PyExn
  | osError : PyExn
deriving DecidableEq

/-- The exception classes named in the except clause of
ConfigManager.load_config (src/tql.py line 119). -/
def load_config_catches : PyExn → Bool
  | .jsonDecodeError => true
  | .fileNotFoundError => true
  | .valueError => true
  | .osError => false

/-- State of a stored file: absent, present but failing to parse as JSON, or
present and parsing to a JSON value. -/
inductive FileState where
  | absent : FileState
  | present (parsed : Option JsonVal) : FileState

/-- The body of the try block in ConfigManager.load_config (src/tql.py lines
84-117): json.load raises JSONDecodeError on unparsable content; a parsed
value that is not a dict raises ValueError; a dict is validated section by
section. -/
def try_load : Option JsonVal → Except PyExn JsonVal
  | none => .error .jsonDecodeError
  | some j =>
    match j with
    | .obj kvs => .ok (.obj (validateSections default_sections kvs))
    | _ => .error .valueError

/-- Outcome of a load_config call: the value returned to the caller (or a
propagated exception) and the configuration written back to disk, if any. -/
structure ConfigLoad where
  result : Except PyExn JsonVal
  written : Option JsonVal

/-- ConfigManager.load_config (src/tql.py lines 54-123): a missing file is
created with the defaults; otherwise the try body runs and the except clause
turns a caught exception into a repair (save defaults, return defaults). -/
def load_config : FileState → ConfigLoad
  | .absent => ⟨.ok default_config, some default_config⟩
  | .present parsed =>
    match try_load parsed with
    | .ok c => ⟨.ok c, none⟩
    | .error e =>
      if load_config_catches e then ⟨.ok default_config, some default_config⟩
      else ⟨.error e, none⟩

/-- ConfigManager.save_config (src/tql.py lines 125-131): the write is wrapped
in a try block whose except clause catches every exception and only prints, so
the call always returns normally.  The writeErr parameter is the outcome of
the underlying file write (none for success, some message for an OS error). -/
def save_config (writeErr : Option String) (config : JsonVal) :
    Except String Unit :=
  match writeErr, config with
  | none, _ => .ok ()
  | some _, _ => .ok ()

/-- ConfigManager.load_projects (src/tql.py lines 133-141): return the parsed
JSON value as-is; a missing or unparsable file yields the empty list. -/
def load_projects : FileState → JsonVal
  | .absent => .arr []
  | .present none => .arr []
  | .present (some j) => j

/-- A history entry as built by QueryHistoryManager.add_to_history
(src/tql.py lines 410-415); the timestamp stands for
datetime.now().isoformat() and execution_time is always None. -/
structure HEntry where
  query : String
  database : Option String
  timestamp : Nat
  execution_time : Option Nat
deriving DecidableEq

/-- The list manipulation inside QueryHistoryManager.add_to_history
(src/tql.py lines 417-420): drop every stored entry whose query text equals
the new query, prepend the new entry, keep the first 100. -/
def add_to_history_list (history : List HEntry) (query : String)
    (database : Option String) (ts : Nat) : List HEntry :=
  ((⟨query, database, ts, none⟩ : HEntry) ::
    history.filter (fun h => h.query != query)).take 100

/-- QueryHistoryManager.load_history (src/tql.py lines 424-432): return the
parsed JSON value as-is; a missing or unparsable file yields the empty list. -/
def load_history : FileState → JsonVal
  | .absent => .arr []
  | .present none => .arr []
  | .present (some j) => j

/-- QueryHistoryManager.save_history (src/tql.py lines 434-437): a bare
open-and-dump with no try block, so a failing write raises to the caller. -/
def save_history (writeErr : Option String) (history : List HEntry) :
    Except String Unit :=
  match writeErr, history with
  | none, _ => .ok ()
  | some e, _ => .error e

/-- QueryHistoryManager.add_to_history (src/tql.py lines 407-422): compute the
new list from the stored one and save it; the save has no exception handling,
so a write failure propagates.  Returns the list written on success. -/
def add_to_history (stored : List HEntry) (query : String)
    (database : Option String) (ts : Nat) (writeErr : Option String) :
    Except String (List HEntry) :=
  match save_history writeErr (add_to_history_list stored query database ts) with
  | .ok _ => .ok (add_to_history_list stored query database ts)
  | .error e => .error e

/-- A live MySQL connection object: its identity and the value of
is_connected(). -/
structure Conn where
  id : Nat
  is_connected : Bool
deriving DecidableEq

/-- The mutable state of a DatabaseManager (src/tql.py lines 294-297):
the connection object (or None), the current database name, and a counter
supplying fresh identities for newly opened connections. -/
structure DBState where
  connection : Option Conn
  current_database : Option String
  nextId : Nat
deriving DecidableEq

/-- The state of a freshly constructed DatabaseManager: no connection, no
current database. -/
def dbInit : DBState := ⟨none, none, 0⟩

/-- Whether execute_query sees a usable connection
(self.connection and self.connection.is_connected()). -/
def dbIsConnected (st : DBState) : Bool :=
  match st.connection with
  | some c => c.is_connected
  | none => false

/-- Observable actions on connection objects: opening a new connection and
closing an existing one. -/
inductive MEvent where
  | opened (id : Nat) : MEvent
  | closed (id : Nat) : MEvent
deriving DecidableEq

/-- Result of DatabaseManager.connect: the new state, the returned boolean,
and the connection events performed. -/
structure ConnectOut where
  state : DBState
  ok : Bool
  events : List MEvent
deriving DecidableEq

/-- DatabaseManager.connect (src/tql.py lines 299-317): on success the new
connection object is assigned over whatever was held before (no close of a
prior connection is performed) and current_database is set; on failure the
assignment never happens, the state is unchanged, and False is returned.
The succeed flag is the outcome of the mysql.connector.connect call. -/
def connect (st : DBState) (database : Option String) (succeed : Bool) :
    ConnectOut :=
  if succeed then
    ⟨{ connection := some ⟨st.nextId, true⟩, current_database := database,
       nextId := st.nextId + 1 }, true, [.opened st.nextId]⟩
  else
    ⟨st, false, []⟩

/-- Result of DatabaseManager.disconnect: the new state and the connection
events performed. -/
structure DisconnectOut where
  state : DBState
  events : List MEvent
deriving DecidableEq

/-- DatabaseManager.disconnect (src/tql.py lines 319-324): when a connected
connection is held it is closed and both fields are cleared; otherwise the
call does nothing. -/
def disconnect (st : DBState) : DisconnectOut :=
  match st.connection with
  | some c =>
    if c.is_connected then
      ⟨{ st with connection := none, current_database := none }, [.closed c.id]⟩
    else ⟨st, []⟩
  | none => ⟨st, []⟩

/-- What the engine reports for an executed statement: the cursor description
(None for statements without a result set, otherwise the column names in
order), the rows a fetchall would return, and cursor.rowcount. -/
structure EngineResult where
  description : Option (List String)
  rows : List (List JsonVal)
  rowcount : Int

/-- Python truthiness of cursor.description: None and the empty sequence are
falsy, a nonempty sequence is truthy. -/
def descTruthy : Option (List String) → Bool
  | some (_ :: _) => true
  | _ => false

/-- The result dictionary built by DatabaseManager.execute_query: either all
three keys (tabular) or only rowcount (mutation); fields absent from the
dictionary are none. -/
structure QueryResult where
  columns : Option (List String)
  rows : Option (List (List JsonVal))
  rowcount : Int

/-- DatabaseManager.execute_query (src/tql.py lines 326-343): raise when no
connected connection is held (and send nothing); otherwise execute the
statement and, when fetch is requested and the description is truthy, return
columns, all rows, and rowcount without committing; otherwise commit and
return rowcount alone.  The second component lists the statements actually
handed to a cursor, and the Bool in the result is whether commit was called. -/
def execute_query (st : DBState) (query : String) (engine : EngineResult)
    (fetch : Bool) : Except String (QueryResult × Bool) × List String :=
  if dbIsConnected st then
    match fetch, engine.description with
    | true, some (c :: cs) =>
      (.ok (⟨some (c :: cs), some engine.rows, engine.rowcount⟩, false), [query])
    | _, _ =>
      (.ok (⟨none, none, engine.rowcount⟩, true), [query])
  else
    (.error "Not connected to database", [])

/-- CreateUserDialog.create_user (src/tql.py lines 602-616): insert a
(username, digest of password) row; the primary key on username turns a
duplicate into an IntegrityError, which is caught and reported as False with
the table unchanged.  The digest parameter stands for
hashlib.sha256(...).hexdigest(). -/
def create_user (digest : String → String) (users : List (String × String))
    (username password : String) : List (String × String) × Bool :=
  if users.any (fun r => r.1 == username) then (users, false)
  else (users ++ [(username, digest password)], true)

/-- LoginDialog.authenticate (src/tql.py lines 524-535): select a row matching
both the username and the digest of the supplied password; true exactly when
such a row exists, false otherwise (an unknown user simply finds no row). -/
def authenticate (digest : String → String) (users : List (String × String))
    (username password : String) : Bool :=
  users.any (fun r => r.1 == username && r.2 == digest password)

/-- A recent-project record as built by
MySQLDatabaseManager.add_to_recent_projects (src/tql.py lines 983-991); the
last_opened timestamp stands for datetime.now().isoformat(). -/
structure Project where
  name : String
  database : String
  host : String
  port : Int
  username : String
  password : String
  last_opened : Nat
deriving DecidableEq

/-- The list manipulation inside MySQLDatabaseManager.add_to_recent_projects
(src/tql.py lines 979-999): drop every stored project with the same database
name, prepend the new record, keep the first 10. -/
def add_to_recent_projects_list (projects : List Project) (name database host : String)
    (port : Int) (username password : String) (ts : Nat) : List Project :=
  ((⟨name, database, host, port, username, password, ts⟩ : Project) ::
    projects.filter (fun p => p.database != database)).take 10

/-- C1: on a connected session with the default fetch behavior, execute_query
yields exactly one of two mutually exclusive variants: when the engine reports
a (nonempty) result descriptor, the tabular variant with the ordered column
names, all rows, and the row count, with no commit; otherwise the statement is
committed and only the affected-row count is populated.  The final conjunct
states the exclusivity: any successful result either has columns and rows
populated without a commit, or has neither and was committed. -/
theorem execute_query_two_variants (st : DBState) (q : String)
    (engine : EngineResult) (h : dbIsConnected st = true) :
    (execute_query st q engine true).2 = [q] ∧
    (∀ c cs, engine.description = some (c :: cs) →
      (execute_query st q engine true).1 =
        Except.ok (⟨some (c :: cs), some engine.rows, engine.rowcount⟩, false)) ∧
    (descTruthy engine.description = false →
      (execute_query st q engine true).1 =
        Except.ok (⟨none, none, engine.rowcount⟩, true)) ∧
    (∀ r comm, (execute_query st q engine true).1 = Except.ok (r, comm) →
      (r.columns.isSome = true ∧ r.rows = some engine.rows ∧ comm = false) ∨
      (r.columns = none ∧ r.rows = none ∧ comm = true)) := by
  unfold execute_query
  rw [h]
  simp only [if_true]
  cases hd : engine.description with
  | none =>
    refine ⟨rfl, ?_, ?_, ?_⟩
    · intro c cs hcc
      simp at hcc
    · intro _
      rfl
    · intro r comm hr
      rw [Except.ok.injEq, Prod.mk.injEq] at hr
      rcases hr with ⟨rfl, rfl⟩
      right
      exact ⟨rfl, rfl, rfl⟩
  | some l =>
    cases l with
    | nil =>
      refine ⟨rfl, ?_, ?_, ?_⟩
      · intro c cs hcc
        simp at hcc
      · intro _
        rfl
      · intro r comm hr
        rw [Except.ok.injEq, Prod.mk.injEq] at hr
        rcases hr with ⟨rfl, rfl⟩
        right
        exact ⟨rfl, rfl, rfl⟩
    | cons c cs =>
      refine ⟨rfl, ?_, ?_, ?_⟩
      · intro c1 cs1 hcc
        rw [Option.some.injEq, List.cons.injEq] at hcc
        rcases hcc with ⟨rfl, rfl⟩
        rfl
      · intro hf
        simp [descTruthy] at hf
      · intro r comm hr
        rw [Except.ok.injEq, Prod.mk.injEq] at hr
        rcases hr with ⟨rfl, rfl⟩
        left
        exact ⟨rfl, rfl, rfl⟩

/-- Witness for C1: a two-column two-row SELECT gives the tabular variant and
an UPDATE with no descriptor gives the mutation variant. -/
theorem execute_query_two_variants_witness :
    (execute_query ⟨some ⟨0, true⟩, some "db", 1⟩ "SELECT id, name FROM t"
        ⟨some ["id", "name"], [[.num 1, .str "a"], [.num 2, .str "b"]], 2⟩ true).1 =
      Except.ok (⟨some ["id", "name"],
        some [[.num 1, .str "a"], [.num 2, .str "b"]], 2⟩, false) ∧
    (execute_query ⟨some ⟨0, true⟩, some "db", 1⟩ "UPDATE t SET g = 1"
        ⟨none, [], 3⟩ true).1 = Except.ok (⟨none, none, 3⟩, true) :=
  ⟨(execute_query_two_variants ⟨some ⟨0, true⟩, some "db", 1⟩ "SELECT id, name FROM t"
      ⟨some ["id", "name"], [[.num 1, .str "a"], [.num 2, .str "b"]], 2⟩ rfl).2.1
      "id" ["name"] rfl,
   (execute_query_two_variants ⟨some ⟨0, true⟩, some "db", 1⟩ "UPDATE t SET g = 1"
      ⟨none, [], 3⟩ rfl).2.2.1 rfl⟩

/-- C3: loading a config file whose content does not parse, or parses to a
non-object value, returns the full default configuration without raising, and
rewrites the file with the defaults. -/
theorem load_config_recovers (j : JsonVal) (h : isObj j = false) :
    load_config (.present (some j)) = ⟨.ok default_config, some default_config⟩ ∧
    load_config (.present none) = ⟨.ok default_config, some default_config⟩ := by
  refine ⟨?_, rfl⟩
  cases j with
  | obj entries => simp [isObj] at h
  | null => rfl
  | bool b => rfl
  | num n => rfl
  | str s => rfl
  | arr elems => rfl

/-- Witness for C3: an array-valued config file (not an object) yields the
defaults and a repair write, as does an unparsable file. -/
theorem load_config_recovers_witness :
    load_config (.present (some (.arr [.num 1]))) =
      ⟨.ok default_config, some default_config⟩ ∧
    load_config (.present none) = ⟨.ok default_config, some default_config⟩ :=
  ⟨(load_config_recovers (.arr [.num 1]) rfl).1,
   (load_config_recovers (.arr [.num 1]) rfl).2⟩

/-- C5: execute_query on the freshly constructed manager fails with the
NotConnected error and sends nothing; the same holds after a successful
connect followed by disconnect, and in general whenever no connected
connection is held. -/
theorem execute_query_requires_connected (q : String) (engine : EngineResult)
    (fetch : Bool) (db : Option String) :
    execute_query dbInit q engine fetch = (.error "Not connected to database", []) ∧
    execute_query (disconnect (connect dbInit db true).state).state q engine fetch =
      (.error "Not connected to database", []) ∧
    (∀ st : DBState, dbIsConnected st = false →
      execute_query st q engine fetch = (.error "Not connected to database", [])) := by
  refine ⟨rfl, rfl, ?_⟩
  intro st hst
  unfold execute_query
  rw [hst]
  rfl

/-- Witness for C5: a state with a connection object whose is_connected is
false also fails with the NotConnected error and sends nothing. -/
theorem execute_query_requires_connected_witness :
    execute_query ⟨some ⟨5, false⟩, some "db", 6⟩ "SELECT 1" ⟨none, [], 0⟩ true =
      (.error "Not connected to database", []) :=
  (execute_query_requires_connected "SELECT 1" ⟨none, [], 0⟩ true none).2.2
    ⟨some ⟨5, false⟩, some "db", 6⟩ rfl

/-- C6 counterexample: calling connect while a connection is already held does
not close the prior connection.  From the initial state a successful connect
holds connection 0; a second successful connect performs only an open of
connection 1 and no close of connection 0 appears among its events, refuting
the claim that the prior connection is disconnected before the new one is
opened. -/
theorem connect_does_not_close_prior :
    (connect dbInit none true).state.connection = some ⟨0, true⟩ ∧
    (connect (connect dbInit none true).state none true).events = [.opened 1] ∧
    MEvent.closed 0 ∉ (connect (connect dbInit none true).state none true).events := by
  refine ⟨rfl, rfl, ?_⟩
  decide

/-- C6 amended: a DatabaseManager references at most one connection: a
successful connect made while a connection is held overwrites the stored
connection with the newly opened one and performs no close of any connection;
a failed connect leaves the state unchanged. -/
theorem connect_replaces_without_close (st : DBState) (db : Option String)
    (c : Conn) (h : st.connection = some c) :
    (connect st db true).state.connection = some ⟨st.nextId, true⟩ ∧
    (connect st db true).events = [.opened st.nextId] ∧
    (∀ i, MEvent.closed i ∉ (connect st db true).events) ∧
    (connect st db false).state = st := by
  refine ⟨rfl, rfl, ?_, rfl⟩
  intro i hm
  simp [connect] at hm

/-- Witness for C6 amended: from a state holding connection 0, a successful
connect stores connection 1 and performs only the open event. -/
theorem connect_replaces_without_close_witness :
    (connect ⟨some ⟨0, true⟩, some "db", 1⟩ none true).state.connection =
      some ⟨1, true⟩ ∧
    (connect ⟨some ⟨0, true⟩, some "db", 1⟩ none true).events = [.opened 1] :=
  ⟨(connect_replaces_without_close ⟨some ⟨0, true⟩, some "db", 1⟩ none ⟨0, true⟩ rfl).1,
   (connect_replaces_without_close ⟨some ⟨0, true⟩, some "db", 1⟩ none ⟨0, true⟩ rfl).2.1⟩

/-- C2: evaluation at the failing input.  The default configuration has a
current_user entry, but loading any parseable object - even the empty object,
and even an object that stores a current_user value - returns a configuration
from which the current_user key is missing entirely: the validation loop skips
every default entry whose value is not a dict, and the current_user default is
null.  The three dict-valued sections are merged as described. -/
theorem load_config_drops_current_user :
    jsonLookup default_config "current_user" = some .null ∧
    (load_config (.present (some (.obj [])))).result =
      .ok (.obj [("mysql", .obj [("host", .str "localhost"), ("port", .num 3306),
                    ("username", .str "root"), ("password", .str "")]),
                 ("appearance", .obj [("theme", .str "Light"),
                    ("font_size", .num 10)]),
                 ("editor", .obj [("auto_complete", .bool true),
                    ("syntax_highlighting", .bool true)])]) ∧
    (match (load_config (.present (some (.obj [])))).result with
     | .ok c => jsonLookup c "current_user"
     | .error _ => none) = none ∧
    (match (load_config (.present (some
        (.obj [("current_user", .str "alice")])))).result with
     | .ok c => jsonLookup c "current_user"
     | .error _ => none) = none := by
  refine ⟨rfl, rfl, rfl, rfl⟩

/-- C7 counterexample: a failing write of the history file is not swallowed by
add_to_history; the error reaches the caller. -/
theorem add_to_history_raises_on_write_failure :
    add_to_history [] "SELECT 1" none 0 (some "disk full") =
      .error "disk full" := rfl

/-- C7 amended: add_to_history succeeds exactly when the history file write
succeeds; a write failure propagates to the caller because save_history has no
exception handling, in contrast to save_config, which swallows every write
error. -/
theorem add_to_history_propagates_write_errors (stored : List HEntry)
    (q : String) (db : Option String) (ts : Nat) :
    add_to_history stored q db ts none = .ok (add_to_history_list stored q db ts) ∧
    (∀ e, add_to_history stored q db ts (some e) = .error e) ∧
    (∀ e c, save_config (some e) c = .ok ()) :=
  ⟨rfl, fun _ => rfl, fun _ _ => rfl⟩

/-- Unfolding of the history update: prepending the new entry to the filtered
list and truncating to 100 keeps the new entry and the first 99 filtered
survivors. -/
theorem add_to_history_list_eq (stored : List HEntry) (q : String)
    (db : Option String) (ts : Nat) :
    add_to_history_list stored q db ts =
      (⟨q, db, ts, none⟩ : HEntry) ::
        (stored.filter (fun h => h.query != q)).take 99 := by
  unfold add_to_history_list
  rw [show (100 : Nat) = 99 + 1 from rfl, List.take_succ_cons]

/-- C4 counterexample: with two stored entries whose query text is A (a state
load_history accepts as-is from disk), recording B leaves both A entries in
place, so after the call the history holds two entries with the same query
text, refuting the claim that after every call at most one entry equals any
given string. -/
theorem add_to_history_keeps_foreign_duplicates :
    ((add_to_history_list [⟨"A", none, 0, none⟩, ⟨"A", none, 1, none⟩]
        "B" none 2).filter (fun h => h.query == "A")).length = 2 ∧
    ¬ (((add_to_history_list [⟨"A", none, 0, none⟩, ⟨"A", none, 1, none⟩]
        "B" none 2).filter (fun h => h.query == "A")).length ≤ 1) := by
  refine ⟨by decide, by decide⟩

/-- C4 amended: after every call the history holds at most 100 entries, the
just-recorded entry with its new timestamp is at the front, exactly one entry
carries the just-recorded query text, and pairwise-distinct query texts are
preserved when they held before the call; recording a 101st query on a full
list of 100 entries none of which carries the new text drops the oldest
entry. -/
theorem add_to_history_invariants (stored : List HEntry) (q : String)
    (db : Option String) (ts : Nat) :
    (add_to_history_list stored q db ts).length ≤ 100 ∧
    (add_to_history_list stored q db ts).head? = some ⟨q, db, ts, none⟩ ∧
    ((add_to_history_list stored q db ts).filter
      (fun h => h.query == q)).length = 1 ∧
    (stored.Pairwise (fun a b => a.query ≠ b.query) →
      (add_to_history_list stored q db ts).Pairwise
        (fun a b => a.query ≠ b.query)) ∧
    (stored.length = 100 → (∀ h ∈ stored, h.query ≠ q) →
      add_to_history_list stored q db ts =
        (⟨q, db, ts, none⟩ : HEntry) :: stored.take 99) := by
  refine ⟨?_, ?_, ?_, ?_, ?_⟩
  · unfold add_to_history_list
    apply List.length_take_le
  · rw [add_to_history_list_eq]
    rfl
  · rw [add_to_history_list_eq]
    have hnil : ((stored.filter (fun h => h.query != q)).take 99).filter
        (fun h => h.query == q) = [] := by
      rw [List.filter_eq_nil_iff]
      intro a ha
      have hmem := List.take_subset 99 _ ha
      rw [List.mem_filter] at hmem
      simpa using hmem.2
    rw [List.filter_cons_of_pos (by simp), hnil]
    rfl
  · intro hp
    rw [add_to_history_list_eq, List.pairwise_cons]
    constructor
    · intro b hb
      have hmem := List.take_subset 99 _ hb
      rw [List.mem_filter] at hmem
      have : b.query ≠ q := by simpa using hmem.2
      exact fun hq => this hq.symm
    · exact hp.sublist ((List.take_sublist _ _).trans (List.filter_sublist _))
  · intro _ hne
    rw [add_to_history_list_eq, List.filter_eq_self.mpr]
    intro a ha
    simpa using hne a ha

/-- Witness for C4 amended: the preservation and cap-overflow conjuncts at
concrete inputs, with their hypotheses discharged by evaluation. -/
theorem add_to_history_invariants_witness :
    ((add_to_history_list [⟨"A", none, 0, none⟩] "B" none 1).Pairwise
      (fun a b => a.query ≠ b.query)) ∧
    add_to_history_list (List.replicate 100 ⟨"A", none, 0, none⟩) "B" none 1 =
      (⟨"B", none, 1, none⟩ : HEntry) ::
        (List.replicate 100 (⟨"A", none, 0, none⟩ : HEntry)).take 99 :=
  ⟨(add_to_history_invariants [⟨"A", none, 0, none⟩] "B" none 1).2.2.2.1
      (by decide),
   (add_to_history_invariants (List.replicate 100 ⟨"A", none, 0, none⟩)
      "B" none 1).2.2.2.2 (by decide) (by decide)⟩

/-- Unfolding of the recent-projects update: prepending the new record to the
filtered list and truncating to 10 keeps the new record and the first 9
filtered survivors. -/
theorem add_to_recent_projects_list_eq (projects : List Project)
    (nm dbn hostn : String) (port : Int) (user pw : String) (ts : Nat) :
    add_to_recent_projects_list projects nm dbn hostn port user pw ts =
      (⟨nm, dbn, hostn, port, user, pw, ts⟩ : Project) ::
        (projects.filter (fun p => p.database != dbn)).take 9 := by
  unfold add_to_recent_projects_list
  rw [show (10 : Nat) = 9 + 1 from rfl, List.take_succ_cons]

/-- C9 counterexample: with two stored projects for database db1 (a state
load_projects accepts as-is from disk), adding a project for db2 leaves both
db1 entries in place, so after the call two entries share a database name,
refuting the claim that after every call at most one entry per database name
remains. -/
theorem add_to_recent_projects_keeps_foreign_duplicates :
    ((add_to_recent_projects_list
        [⟨"p1", "db1", "localhost", 3306, "root", "", 0⟩,
         ⟨"p2", "db1", "localhost", 3306, "root", "", 1⟩]
        "p3" "db2" "localhost" 3306 "root" "" 2).filter
      (fun p => p.database == "db1")).length = 2 ∧
    ¬ (((add_to_recent_projects_list
        [⟨"p1", "db1", "localhost", 3306, "root", "", 0⟩,
         ⟨"p2", "db1", "localhost", 3306, "root", "", 1⟩]
        "p3" "db2" "localhost" 3306 "root" "" 2).filter
      (fun p => p.database == "db1")).length ≤ 1) := by
  refine ⟨by decide, by decide⟩

/-- C9 amended: after every call the recent-projects list has at most 10
entries, the just-added record is at the front, exactly one entry carries the
just-added database name, pairwise-distinct database names are preserved when
they held before, descending last-opened order is preserved when it held
before and the new timestamp is at least every stored one, and adding an 11th
project to a full list of 10 entries for other databases drops the oldest
entry. -/
theorem add_to_recent_projects_invariants (projects : List Project)
    (nm dbn hostn : String) (port : Int) (user pw : String) (ts : Nat) :
    (add_to_recent_projects_list projects nm dbn hostn port user pw ts).length ≤ 10 ∧
    (add_to_recent_projects_list projects nm dbn hostn port user pw ts).head? =
      some ⟨nm, dbn, hostn, port, user, pw, ts⟩ ∧
    ((add_to_recent_projects_list projects nm dbn hostn port user pw ts).filter
      (fun p => p.database == dbn)).length = 1 ∧
    (projects.Pairwise (fun a b => a.database ≠ b.database) →
      (add_to_recent_projects_list projects nm dbn hostn port user pw ts).Pairwise
        (fun a b => a.database ≠ b.database)) ∧
    (projects.Pairwise (fun a b => b.last_opened ≤ a.last_opened) →
      (∀ p ∈ projects, p.last_opened ≤ ts) →
      (add_to_recent_projects_list projects nm dbn hostn port user pw ts).Pairwise
        (fun a b => b.last_opened ≤ a.last_opened)) ∧
    (projects.length = 10 → (∀ p ∈ projects, p.database ≠ dbn) →
      add_to_recent_projects_list projects nm dbn hostn port user pw ts =
        (⟨nm, dbn, hostn, port, user, pw, ts⟩ : Project) :: projects.take 9) := by
  refine ⟨?_, ?_, ?_, ?_, ?_, ?_⟩
  · unfold add_to_recent_projects_list
    apply List.length_take_le
  · rw [add_to_recent_projects_list_eq]
    rfl
  · rw [add_to_recent_projects_list_eq]
    have hnil : ((projects.filter (fun p => p.database != dbn)).take 9).filter
        (fun p => p.database == dbn) = [] := by
      rw [List.filter_eq_nil_iff]
      intro a ha
      have hmem := List.take_subset 9 _ ha
      rw [List.mem_filter] at hmem
      simpa using hmem.2
    rw [List.filter_cons_of_pos (by simp), hnil]
    rfl
  · intro hp
    rw [add_to_recent_projects_list_eq, List.pairwise_cons]
    constructor
    · intro b hb
      have hmem := List.take_subset 9 _ hb
      rw [List.mem_filter] at hmem
      have : b.database ≠ dbn := by simpa using hmem.2
      exact fun hq => this hq.symm
    · exact hp.sublist ((List.take_sublist _ _).trans (List.filter_sublist _))
  · intro hs hts
    rw [add_to_recent_projects_list_eq, List.pairwise_cons]
    constructor
    · intro b hb
      exact hts b ((List.filter_sublist _).subset (List.take_subset 9 _ hb))
    · exact hs.sublist ((List.take_sublist _ _).trans (List.filter_sublist _))
  · intro _ hne
    rw [add_to_recent_projects_list_eq, List.filter_eq_self.mpr]
    intro a ha
    simpa using hne a ha

/-- Witness for C9 amended: the preservation and cap-overflow conjuncts at
concrete inputs, with their hypotheses discharged by evaluation. -/
theorem add_to_recent_projects_invariants_witness :
    ((add_to_recent_projects_list [⟨"p1", "db1", "localhost", 3306, "root", "", 0⟩]
        "p2" "db2" "localhost" 3306 "root" "" 1).Pairwise
      (fun a b => a.database ≠ b.database)) ∧
    ((add_to_recent_projects_list [⟨"p1", "db1", "localhost", 3306, "root", "", 0⟩]
        "p2" "db2" "localhost" 3306 "root" "" 1).Pairwise
      (fun a b => b.last_opened ≤ a.last_opened)) ∧
    add_to_recent_projects_list
        (List.replicate 10 ⟨"p1", "db1", "localhost", 3306, "root", "", 0⟩)
        "p2" "db2" "localhost" 3306 "root" "" 1 =
      (⟨"p2", "db2", "localhost", 3306, "root", "", 1⟩ : Project) ::
        (List.replicate 10
          (⟨"p1", "db1", "localhost", 3306, "root", "", 0⟩ : Project)).take 9 :=
  ⟨(add_to_recent_projects_invariants [⟨"p1", "db1", "localhost", 3306, "root", "", 0⟩]
      "p2" "db2" "localhost" 3306 "root" "" 1).2.2.2.1 (by decide),
   (add_to_recent_projects_invariants [⟨"p1", "db1", "localhost", 3306, "root", "", 0⟩]
      "p2" "db2" "localhost" 3306 "root" "" 1).2.2.2.2.1 (by decide)
      (by decide),
   (add_to_recent_projects_invariants
      (List.replicate 10 ⟨"p1", "db1", "localhost", 3306, "root", "", 0⟩)
      "p2" "db2" "localhost" 3306 "root" "" 1).2.2.2.2.2 (by decide)
      (by decide)⟩

/-- C10 amended: whenever the persisted file parses as JSON, load_history and
load_projects return the parsed value exactly as stored, with no truncation,
deduplication, or reordering; the length caps are re-established by the next
add operation, while uniqueness is re-established only for the key being
added. -/
theorem load_returns_stored_exactly (j : JsonVal) (stored : List HEntry)
    (q : String) (db : Option String) (ts : Nat) (projects : List Project)
    (nm dbn hostn : String) (port : Int) (user pw : String) :
    load_history (.present (some j)) = j ∧
    load_projects (.present (some j)) = j ∧
    (add_to_history_list stored q db ts).length ≤ 100 ∧
    (add_to_recent_projects_list projects nm dbn hostn port user pw ts).length ≤ 10 := by
  refine ⟨rfl, rfl, ?_, ?_⟩
  · unfold add_to_history_list
    apply List.length_take_le
  · unfold add_to_recent_projects_list
    apply List.length_take_le

/-- C10 counterexample: a persisted history with two entries of equal query
text is returned by load_history exactly as stored, and the next add does not
re-establish uniqueness: after recording a different query, both duplicates
remain. -/
theorem load_history_add_no_global_dedup :
    load_history (.present (some (.arr [.obj [("query", .str "A")],
        .obj [("query", .str "A")]]))) =
      .arr [.obj [("query", .str "A")], .obj [("query", .str "A")]] ∧
    ((add_to_history_list [⟨"A", none, 3, none⟩, ⟨"A", none, 4, none⟩]
        "C" none 5).filter (fun h => h.query == "A")).length = 2 :=
  ⟨rfl, by decide⟩

/-- C8: on a store with no record for u, creating u with password x succeeds;
a second creation for u fails with the duplicate outcome and leaves the store
unchanged; authentication then succeeds for the original password and fails
for any password whose digest differs, and authentication for any username
not in the store returns false (it raises nothing: it is a total Boolean
function).  The digest parameter stands for the configured hash (SHA-256 in
the source); distinct passwords are rendered as distinct digests, since
collision-freeness of the external hash lies outside the embedding. -/
theorem create_user_and_authenticate (digest : String → String)
    (users : List (String × String)) (u x y : String)
    (hu : users.any (fun r => r.1 == u) = false) (hxy : digest x ≠ digest y) :
    (create_user digest users u x).2 = true ∧
    (create_user digest (create_user digest users u x).1 u y).2 = false ∧
    (create_user digest (create_user digest users u x).1 u y).1 =
      (create_user digest users u x).1 ∧
    authenticate digest (create_user digest users u x).1 u x = true ∧
    authenticate digest (create_user digest users u x).1 u y = false ∧
    (∀ v p, (create_user digest users u x).1.any (fun r => r.1 == v) = false →
      authenticate digest (create_user digest users u x).1 v p = false) := by
  have hs1 : (create_user digest users u x).1 = users ++ [(u, digest x)] := by
    unfold create_user
    rw [hu]
    rfl
  have hall : ∀ r ∈ users, (r.1 == u) = false := by
    intro r hr
    have hfalse := List.any_eq_false.mp hu r hr
    simpa using hfalse
  refine ⟨?_, ?_, ?_, ?_, ?_, ?_⟩
  · unfold create_user
    rw [hu]
    rfl
  · rw [hs1]
    simp [create_user, List.any_append]
  · rw [hs1]
    simp [create_user, List.any_append]
  · rw [hs1]
    simp [authenticate, List.any_append]
  · rw [hs1]
    unfold authenticate
    rw [List.any_append, Bool.or_eq_false_iff]
    constructor
    · rw [List.any_eq_false]
      intro r hr
      simp [hall r hr]
    · simp
      exact fun hcontr => absurd hcontr hxy
  · intro v p hv
    rw [hs1] at hv ⊢
    unfold authenticate
    rw [List.any_eq_false]
    intro r hr
    have h1 := List.any_eq_false.mp hv r hr
    simp at h1 ⊢
    intro hcontr
    exact absurd hcontr h1

/-- Witness for C8: the identity digest on an empty store with usernames and
passwords alice, x, y; the unknown user bob authenticates to false. -/
theorem create_user_and_authenticate_witness :
    (create_user (fun s => s) [] "alice" "x").2 = true ∧
    (create_user (fun s => s)
      (create_user (fun s => s) [] "alice" "x").1 "alice" "y").2 = false ∧
    authenticate (fun s => s)
      (create_user (fun s => s) [] "alice" "x").1 "alice" "x" = true ∧
    authenticate (fun s => s)
      (create_user (fun s => s) [] "alice" "x").1 "alice" "y" = false ∧
    authenticate (fun s => s)
      (create_user (fun s => s) [] "alice" "x").1 "bob" "pw" = false := by
  have h := create_user_and_authenticate (fun s => s) [] "alice" "x" "y" rfl
    (by decide)
  exact ⟨h.1, h.2.1, h.2.2.2.1, h.2.2.2.2.1, h.2.2.2.2.2 "bob" "pw" (by decide)⟩
